import Mathlib

/-!
Verification of the iTerm MCP server's terminal-addressing and
command-translation layer, shallowly embedded from src/index.js.

The embedding models:
* `escapeForAppleScript` - the AppleScript string-escaping helper;
* the terminal-identifier codec: the regex parse
  performed by every tool handler, and the identifier synthesis
  performed by open-terminal (`encode`);
* the AppleScript text synthesized by each tool handler (transcribed from
  the template literals in the source, with user-supplied parts spliced in);
* the tool handlers themselves (execute-command, read-output,
  clear-terminal, close-terminal, send-keys) as functions of an
  automation-executor oracle.  Each handler returns the text payload it
  would hand back to the caller together with the list of scripts it
  passed to the executor (so "zero automation calls" is expressible).

JavaScript details that matter and are modelled explicitly: string
truthiness (`undefined` and the empty string are falsy, the number 0 is
falsy), `parseInt` on the digit capture group, number-to-string
interpolation, and ASCII `toLowerCase`.
-/

namespace ITermMCP

/-- Outcome of one `osascript` invocation as seen by a handler: `ok` carries
the trimmed stdout returned by `executeITermScript`, `err` carries the
message of the error the promise was rejected with. -/
inductive ExecOutcome where
  | ok : String → ExecOutcome
  | err : String → ExecOutcome
deriving DecidableEq

/-! ## escapeForAppleScript -/

/-- First pass of `escapeForAppleScript`: `str.replace(/\\/g, '\\\\')`,
each backslash becomes two backslashes. -/
def replaceBackslashes : List Char → List Char
  | [] => []
  | c :: cs =>
      if c = '\\' then '\\' :: '\\' :: replaceBackslashes cs
      else c :: replaceBackslashes cs

/-- Second pass of `escapeForAppleScript`: `.replace(/"/g, '\\"')`,
each double quote becomes backslash quote. -/
def replaceQuotes : List Char → List Char
  | [] => []
  | c :: cs =>
      if c = '"' then '\\' :: '"' :: replaceQuotes cs
      else c :: replaceQuotes cs

/-- `escapeForAppleScript` from src/index.js: backslashes are doubled first,
then double quotes are escaped, exactly in that order. -/
def escapeForAppleScript (str : String) : String :=
  String.mk (replaceQuotes (replaceBackslashes str.data))

/-! ## Number formatting (JavaScript template-literal interpolation) -/

/-- Decimal digit to its character. -/
def digitChar : Nat → Char
  | 0 => '0' | 1 => '1' | 2 => '2' | 3 => '3' | 4 => '4'
  | 5 => '5' | 6 => '6' | 7 => '7' | 8 => '8' | 9 => '9'
  | _ => '*'

/-- Big-endian decimal digits of `n` (empty for 0); the first argument is
structural fuel, always called with `fuel ≥ n`. -/
def natToCharsAux : Nat → Nat → List Char
  | 0, _ => []
  | fuel + 1, n =>
      if n = 0 then []
      else natToCharsAux fuel (n / 10) ++ [digitChar (n % 10)]

/-- Decimal rendering of a natural number, as produced by a JavaScript
template literal for a non-negative integer. -/
def natStr (n : Nat) : String :=
  if n = 0 then "0" else String.mk (natToCharsAux n n)

/-- Decimal rendering of an integer, as produced by a JavaScript template
literal (a leading minus sign for negative values). -/
def jsIntToString (i : Int) : String :=
  if i < 0 then "-" ++ natStr i.natAbs else natStr i.toNat

/-! ## Identifier codec

Every tool handler taking a `terminalId` runs
`terminalId.match(/^iterm-(\d+)-(\d+)$/)`; on success it uses the first
capture group as `windowId` (a string) and `parseInt` of the second as
`tabIndex`.  Because both capture groups are digit runs, the regex match
is equivalent to the deterministic longest-digit-run parse below. -/

/-- `\d` of the JavaScript regex: an ASCII decimal digit. -/
def isDig (c : Char) : Bool := 48 ≤ c.toNat && c.toNat ≤ 57

/-- Value of a digit run, as computed by `parseInt` on a string of ASCII
digits. -/
def parseDecDigits (l : List Char) : Nat :=
  l.foldl (fun a c => 10 * a + (c.toNat - 48)) 0

/-- Parse the part of the identifier after the `iterm-` prefix:
`(\d+)-(\d+)$`. -/
def decodeBody (l : List Char) : Option (String × Nat) :=
  let d1 := l.takeWhile isDig
  let r1 := l.dropWhile isDig
  if d1 = [] then none
  else
    match r1 with
    | '-' :: r2 =>
        let d2 := r2.takeWhile isDig
        if d2 = [] then none
        else if r2.dropWhile isDig = [] then some (String.mk d1, parseDecDigits d2)
        else none
    | _ => none

/-- Match the `^iterm-` prefix of the identifier regex. -/
def decodeData : List Char → Option (String × Nat)
  | 'i' :: 't' :: 'e' :: 'r' :: 'm' :: '-' :: rest => decodeBody rest
  | _ => none

/-- The identifier parse `terminalId.match(/^iterm-(\d+)-(\d+)$/)` shared by
execute-command, read-output, clear-terminal, close-terminal and
send-keys: `none` is the InvalidFormat case, `some (windowId, tabIndex)`
the successful match. -/
def decode (terminalId : String) : Option (String × Nat) :=
  decodeData terminalId.data

/-- Identifier synthesis performed by open-terminal:
the template literal `iterm-<windowId>-<tabIndex>`. -/
def encode (containerId : String) (paneIndex : Nat) : String :=
  "iterm-" ++ containerId ++ "-" ++ natStr paneIndex

/-! ## Script synthesis

The AppleScript texts below are transcribed verbatim from the template
literals in src/index.js; the `++` grouping splits the literals only at
interpolation points and (for later reference in theorems) around the
`newline NO`, `write text` and truncation fragments.  `\x27` is an
apostrophe. -/

/-- Script of the execute-command handler (the `write text` there has no
`newline NO` suffix — the command is followed directly by a line break in
the script, so iTerm appends the implicit trailing newline when
writing). -/
def executeCommandScript (windowId : String) (tabIndex : Nat)
    (escapedCommand : String) : String :=
  "\n      tell application \"iTerm2\"\n        -- Find the window by ID\n        repeat with aWindow in windows\n          if (id of aWindow as string) = \"" ++
  windowId ++
  "\" then\n            tell aWindow\n              -- Find the tab by index\n              if (count of tabs) >= " ++
  natStr tabIndex ++
  " then\n                tell tab " ++
  natStr tabIndex ++
  "\n                  tell current session\n                    " ++
  ("write text \"" ++ escapedCommand ++ "\"\n") ++
  "                    return \"Command executed\"\n                  end tell\n                end tell\n              else\n                return \"Tab not found\"\n              end if\n            end tell\n            return \"Command executed\"\n          end if\n        end repeat\n        return \"Window not found\"\n      end tell\n    "

/-- The truncation fragment of the read-output script, inserted by the
`${lines ? ... : ''}` conditional with the supplied line count spliced
into the comparison and the slice arithmetic. -/
def readOutputTruncBlock (lines : Int) : String :=
  "\n                    -- Get only last N lines\n                    set outputLines to paragraphs of output\n                    set lineCount to count of outputLines\n                    " ++
  ("if lineCount > " ++ jsIntToString lines) ++
  (" then\n                      set startLine to lineCount - " ++
   jsIntToString lines ++
   " + 1\n                      set output to items startLine thru lineCount of outputLines\n                      set AppleScript\x27s text item delimiters to linefeed\n                      set output to output as string\n                      set AppleScript\x27s text item delimiters to \"\"\n                    end if\n                    ")

/-- JavaScript truthiness of the optional `lines` number argument:
absent and 0 are falsy, any other number is truthy. -/
def truthyLines : Option Int → Bool
  | none => false
  | some n => n != 0

/-- The part of the read-output script before the `${lines ? ... : ''}`
conditional. -/
def readOutputScriptPre (windowId : String) (tabIndex : Nat) : String :=
  "\n      tell application \"iTerm2\"\n        repeat with aWindow in windows\n          if (id of aWindow as string) = \"" ++
  windowId ++
  "\" then\n            tell aWindow\n              if (count of tabs) >= " ++
  natStr tabIndex ++
  " then\n                tell tab " ++
  natStr tabIndex ++
  "\n                  tell current session\n                    set output to contents\n                    "

/-- The part of the read-output script after the `${lines ? ... : ''}`
conditional. -/
def readOutputScriptPost : String :=
  "\n                    return output\n                  end tell\n                end tell\n              else\n                return \"Tab not found\"\n              end if\n            end tell\n            exit repeat\n          end if\n        end repeat\n      end tell\n      return \"Window not found\"\n    "

/-- Script of the read-output handler; the truncation block is present
exactly when `lines` is truthy. -/
def readOutputScript (windowId : String) (tabIndex : Nat)
    (lines : Option Int) : String :=
  readOutputScriptPre windowId tabIndex ++
  (if truthyLines lines then readOutputTruncBlock (lines.getD 0) else "") ++
  readOutputScriptPost

/-- Script of the clear-terminal handler. -/
def clearTerminalScript (windowId : String) (tabIndex : Nat) : String :=
  "\n      tell application \"iTerm2\"\n        repeat with aWindow in windows\n          if (id of aWindow as string) = \"" ++
  windowId ++
  "\" then\n            tell aWindow\n              if (count of tabs) >= " ++
  natStr tabIndex ++
  " then\n                tell tab " ++
  natStr tabIndex ++
  "\n                  tell current session\n                    write text \"clear\"\n                    return \"Cleared\"\n                  end tell\n                end tell\n              else\n                return \"Tab not found\"\n              end if\n            end tell\n            exit repeat\n          end if\n        end repeat\n      end tell\n      return \"Window not found\"\n    "

/-- Script of the close-terminal handler (addresses the window only). -/
def closeTerminalScript (windowId : String) : String :=
  "\n      tell application \"iTerm2\"\n        repeat with aWindow in windows\n          if (id of aWindow as string) = \"" ++
  windowId ++
  "\" then\n            close aWindow\n            return \"Closed\"\n          end if\n        end repeat\n      end tell\n      return \"Window not found\"\n    "

/-- The part of either send-keys script before its `write text` command
(the control branch ends with its explanatory AppleScript comment). -/
def sendKeysCtrlScriptPre (windowId : String) (tabIndex : Nat) : String :=
  "\n        tell application \"iTerm2\"\n          repeat with aWindow in windows\n            if (id of aWindow as string) = \"" ++
  windowId ++
  "\" then\n              tell aWindow\n                if (count of tabs) >= " ++
  natStr tabIndex ++
  " then\n                  tell tab " ++
  natStr tabIndex ++
  "\n                    tell current session\n                      -- Send control character using ASCII code\n                      "

/-- The part of either send-keys script after the `newline NO` of its
`write text` command. -/
def sendKeysScriptPost : String :=
  "\n                      return \"Keys sent\"\n                    end tell\n                  end tell\n                else\n                  return \"Tab not found\"\n                end if\n              end tell\n              exit repeat\n            end if\n          end repeat\n        end tell\n        return \"Window not found\"\n      "

/-- Script of the send-keys handler for control-key combinations: the
derived control code is sent via `ASCII character`, with `newline NO`. -/
def sendKeysCtrlScript (windowId : String) (tabIndex : Nat)
    (controlCode : String) : String :=
  sendKeysCtrlScriptPre windowId tabIndex ++
  ("write text (ASCII character " ++ controlCode ++ ")") ++
  " newline NO" ++
  sendKeysScriptPost

/-- The part of the send-keys text/special-key script before its
`write text` command. -/
def sendKeysTextScriptPre (windowId : String) (tabIndex : Nat) : String :=
  "\n        tell application \"iTerm2\"\n          repeat with aWindow in windows\n            if (id of aWindow as string) = \"" ++
  windowId ++
  "\" then\n              tell aWindow\n                if (count of tabs) >= " ++
  natStr tabIndex ++
  " then\n                  tell tab " ++
  natStr tabIndex ++
  "\n                    tell current session\n                      "

/-- Script of the send-keys handler for regular text and non-control
special keys: the escaped sequence is written with `newline NO`. -/
def sendKeysTextScript (windowId : String) (tabIndex : Nat)
    (sequenceToSend : String) : String :=
  sendKeysTextScriptPre windowId tabIndex ++
  ("write text \"" ++ sequenceToSend ++ "\"") ++
  " newline NO" ++
  sendKeysScriptPost

/-! ## send-keys key handling -/

/-- JavaScript truthiness of an optional string argument: absent and the
empty string are falsy. -/
def truthyStr : Option String → Bool
  | none => false
  | some s => s != ""

/-- ASCII `toLowerCase` on one character. -/
def jsToLowerChar (c : Char) : Char :=
  if 65 ≤ c.toNat && c.toNat ≤ 90 then Char.ofNat (c.toNat + 32) else c

/-- ASCII `toLowerCase` on a string. -/
def jsToLower (s : String) : String := String.mk (s.data.map jsToLowerChar)

/-- The fixed special-key map of the send-keys handler (`keyMap` in the
source): canonical key name to the escape-sequence text spliced into the
AppleScript string literal.  A value such as `"\\t"` is the two
characters backslash, t. -/
def keyMap : List (String × String) :=
  [("tab", "\\t"), ("enter", "\\r"), ("escape", "\\033"),
   ("backspace", "\\177"), ("delete", "\\177"),
   ("up", "\\033[A"), ("down", "\\033[B"), ("right", "\\033[C"),
   ("left", "\\033[D"), ("home", "\\033[H"), ("end", "\\033[F"),
   ("pageup", "\\033[5~"), ("pagedown", "\\033[6~"),
   ("ctrl-a", "\\001"), ("ctrl-b", "\\002"), ("ctrl-c", "\\003"),
   ("ctrl-d", "\\004"), ("ctrl-e", "\\005"), ("ctrl-f", "\\006"),
   ("ctrl-g", "\\007"), ("ctrl-h", "\\010"), ("ctrl-i", "\\t"),
   ("ctrl-j", "\\n"), ("ctrl-k", "\\013"), ("ctrl-l", "\\014"),
   ("ctrl-m", "\\r"), ("ctrl-n", "\\016"), ("ctrl-o", "\\017"),
   ("ctrl-p", "\\020"), ("ctrl-q", "\\021"), ("ctrl-r", "\\022"),
   ("ctrl-s", "\\023"), ("ctrl-t", "\\024"), ("ctrl-u", "\\025"),
   ("ctrl-v", "\\026"), ("ctrl-w", "\\027"), ("ctrl-x", "\\030"),
   ("ctrl-y", "\\031"), ("ctrl-z", "\\032"), ("shift-tab", "\\033[Z"),
   ("f1", "\\033OP"), ("f2", "\\033OQ"), ("f3", "\\033OR"),
   ("f4", "\\033OS"), ("f5", "\\033[15~"), ("f6", "\\033[17~"),
   ("f7", "\\033[18~"), ("f8", "\\033[19~"), ("f9", "\\033[20~"),
   ("f10", "\\033[21~"), ("f11", "\\033[23~"), ("f12", "\\033[24~")]

/-- Sequence selection of the send-keys handler: truthy `text` wins and is
escaped; otherwise a truthy `keys` is looked up case-insensitively in
`keyMap`, falling back to sending it as escaped literal text; `none` is
the "No keys or text specified" usage error. -/
def sendKeysSequence (keys text : Option String) : Option String :=
  if truthyStr text then some (escapeForAppleScript (text.getD ("")))
  else if truthyStr keys then
    let keyLower := jsToLower (keys.getD (""))
    match List.lookup keyLower keyMap with
    | some v => some v
    | none => some (escapeForAppleScript (keys.getD ("")))
  else none

/-- The script-branch condition of the send-keys handler:
`keys && keys.toLowerCase().startsWith('ctrl-')`. -/
def ctrlish (keys : Option String) : Bool :=
  truthyStr keys && "ctrl-".data.isPrefixOf (jsToLower (keys.getD (""))).data

/-- The interpolated control code of the send-keys control branch:
`keys.toLowerCase().charAt(5).charCodeAt(0) - 96`, rendered as the
template literal renders a number (`NaN` when `charAt(5)` is empty). -/
def ctrlCodeStr (keys : String) : String :=
  match (jsToLower keys).data.get? 5 with
  | some c => jsIntToString ((c.toNat : Int) - 96)
  | none => "NaN"

/-- The script the send-keys handler synthesizes once a sequence has been
selected: the control branch is chosen from `keys` alone, regardless of
`text`. -/
def sendKeysScriptOf (windowId : String) (tabIndex : Nat)
    (keys text : Option String) : String :=
  if ctrlish keys then
    sendKeysCtrlScript windowId tabIndex (ctrlCodeStr (keys.getD ("")))
  else
    sendKeysTextScript windowId tabIndex ((sendKeysSequence keys text).getD (""))

/-- The confirmation text of a successful send-keys call:
`Sent ${text ? ... : ...} to ${terminalId}` (JavaScript renders an absent
`keys` as `undefined`; that branch is unreachable because a falsy `keys`
with falsy `text` is rejected earlier). -/
def sendKeysSentMessage (keys text : Option String) (terminalId : String) :
    String :=
  "Sent " ++
  (if truthyStr text then "text: \"" ++ text.getD ("") ++ "\""
   else "key: " ++ keys.getD ("undefined")) ++
  " to " ++ terminalId

/-! ## Tool handlers

Each handler takes the automation executor as an oracle from script text
to `ExecOutcome` and returns the text payload of its reply together with
the list of scripts it executed. -/

/-- The execute-command handler. -/
def executeCommandTool (exec : String → ExecOutcome)
    (terminalId command : String) : String × List String :=
  match decode terminalId with
  | none => ("Invalid terminal ID format: " ++ terminalId, [])
  | some (windowId, tabIndex) =>
      let script :=
        executeCommandScript windowId tabIndex (escapeForAppleScript command)
      match exec script with
      | ExecOutcome.ok result =>
          if result = "Window not found" ∨ result = "Tab not found" then
            ("Terminal " ++ terminalId ++ " session not found in iTerm", [script])
          else
            ("Command executed in " ++ terminalId ++ ": " ++ command, [script])
      | ExecOutcome.err msg =>
          ("Failed to execute command: " ++ msg, [script])

/-- The read-output handler. -/
def readOutputTool (exec : String → ExecOutcome)
    (terminalId : String) (lines : Option Int) : String × List String :=
  match decode terminalId with
  | none => ("Invalid terminal ID format: " ++ terminalId, [])
  | some (windowId, tabIndex) =>
      let script := readOutputScript windowId tabIndex lines
      match exec script with
      | ExecOutcome.ok output =>
          if output = "Window not found" ∨ output = "Tab not found" then
            ("Terminal " ++ terminalId ++ " not found in iTerm", [script])
          else
            (if output = "" then "No output available" else output, [script])
      | ExecOutcome.err msg =>
          ("Failed to read output: " ++ msg, [script])

/-- The clear-terminal handler. -/
def clearTerminalTool (exec : String → ExecOutcome)
    (terminalId : String) : String × List String :=
  match decode terminalId with
  | none => ("Invalid terminal ID format: " ++ terminalId, [])
  | some (windowId, tabIndex) =>
      let script := clearTerminalScript windowId tabIndex
      match exec script with
      | ExecOutcome.ok result =>
          if result = "Window not found" ∨ result = "Tab not found" then
            ("Terminal " ++ terminalId ++ " not found in iTerm", [script])
          else
            ("Terminal " ++ terminalId ++ " cleared", [script])
      | ExecOutcome.err msg =>
          ("Failed to clear terminal: " ++ msg, [script])

/-- The close-terminal handler.  The catch block of the source only logs
the error; the "closed" confirmation return sits after the try/catch, so
both a non-sentinel script result and an executor error fall through to
it. -/
def closeTerminalTool (exec : String → ExecOutcome)
    (terminalId : String) : String × List String :=
  match decode terminalId with
  | none => ("Invalid terminal ID format: " ++ terminalId, [])
  | some (windowId, _tabIndex) =>
      let script := closeTerminalScript windowId
      match exec script with
      | ExecOutcome.ok result =>
          if result = "Window not found" then
            ("Terminal " ++ terminalId ++ " was not found in iTerm", [script])
          else
            ("Terminal " ++ terminalId ++ " closed", [script])
      | ExecOutcome.err _msg =>
          ("Terminal " ++ terminalId ++ " closed", [script])

/-- The send-keys handler. -/
def sendKeysTool (exec : String → ExecOutcome)
    (terminalId : String) (keys text : Option String) : String × List String :=
  match decode terminalId with
  | none => ("Invalid terminal ID format: " ++ terminalId, [])
  | some (windowId, tabIndex) =>
      match sendKeysSequence keys text with
      | none => ("No keys or text specified", [])
      | some _seq =>
          let script := sendKeysScriptOf windowId tabIndex keys text
          match exec script with
          | ExecOutcome.ok result =>
              if result = "Window not found" ∨ result = "Tab not found" then
                ("Terminal " ++ terminalId ++ " not found in iTerm", [script])
              else
                (sendKeysSentMessage keys text terminalId, [script])
          | ExecOutcome.err msg =>
              ("Failed to send keys: " ++ msg, [script])

/-! ## Helper lemmas -/

theorem ne_of_headChar {a b : String} {c d : Char}
    (ha : a.data.head? = some c) (hb : b.data.head? = some d)
    (hcd : c ≠ d) : a ≠ b := by
  intro h
  subst h
  rw [ha] at hb
  exact hcd (Option.some.inj hb)

theorem ne_of_secondChar {a b : String} {c d : Char}
    (ha : a.data.tail.head? = some c) (hb : b.data.tail.head? = some d)
    (hcd : c ≠ d) : a ≠ b := by
  intro h
  subst h
  rw [ha] at hb
  exact hcd (Option.some.inj hb)

theorem ne_append_left (s : String) {a b : String} (h : a ≠ b) :
    s ++ a ≠ s ++ b := by
  intro he
  apply h
  apply String.ext
  have hd := congrArg String.data he
  rw [String.data_append, String.data_append] at hd
  exact List.append_cancel_left hd

theorem infix_data_of_split (pre mid post : String) {hay : String}
    (h : pre ++ mid ++ post = hay) : mid.data <:+: hay.data := by
  refine ⟨pre.data, post.data, ?_⟩
  have hd := congrArg String.data h
  rw [String.data_append, String.data_append] at hd
  exact hd

/-! ## Claim theorems -/

/-- Claim C3: for every operation taking a terminalId and every identifier
that does not match the canonical `iterm-<digits>-<digits>` form, the
handler replies with the invalid-format text and issues zero
automation-executor calls. -/
theorem C3_invalid_format_no_calls (terminalId : String)
    (hdec : decode terminalId = none) (exec : String → ExecOutcome)
    (command : String) (lines : Option Int) (keys text : Option String) :
    executeCommandTool exec terminalId command =
      ("Invalid terminal ID format: " ++ terminalId, []) ∧
    readOutputTool exec terminalId lines =
      ("Invalid terminal ID format: " ++ terminalId, []) ∧
    clearTerminalTool exec terminalId =
      ("Invalid terminal ID format: " ++ terminalId, []) ∧
    closeTerminalTool exec terminalId =
      ("Invalid terminal ID format: " ++ terminalId, []) ∧
    sendKeysTool exec terminalId keys text =
      ("Invalid terminal ID format: " ++ terminalId, []) := by
  refine ⟨?_, ?_, ?_, ?_, ?_⟩ <;>
    simp only [executeCommandTool, readOutputTool, clearTerminalTool,
      closeTerminalTool, sendKeysTool, hdec]

/-- Witness for C3 at the concrete malformed identifier `not-an-id`. -/
theorem C3_witness :
    executeCommandTool (fun _ => ExecOutcome.ok ("")) ("not-an-id") ("ls") =
      ("Invalid terminal ID format: not-an-id", []) :=
  (C3_invalid_format_no_calls ("not-an-id") (by decide)
    (fun _ => ExecOutcome.ok ("")) ("ls") none none none).1

/-- Single-pass characterization of the escaping rule: per character,
backslash becomes two backslashes, a double quote becomes backslash
quote, everything else is unchanged.  Stated from the spec's escaping
rule for comparison with the two-pass source function. -/
def escapeSpecData : List Char → List Char
  | [] => []
  | c :: cs =>
      (if c = '\\' then ['\\', '\\']
       else if c = '"' then ['\\', '"'] else [c]) ++ escapeSpecData cs

theorem replaceQuotes_replaceBackslashes (l : List Char) :
    replaceQuotes (replaceBackslashes l) = escapeSpecData l := by
  induction l with
  | nil => rfl
  | cons c cs ih =>
      by_cases hb : c = '\\'
      · subst hb
        simp [replaceBackslashes, replaceQuotes, escapeSpecData, ih]
      · by_cases hq : c = '"'
        · subst hq
          simp [replaceBackslashes, replaceQuotes, escapeSpecData, hb, ih]
        · simp [replaceBackslashes, replaceQuotes, escapeSpecData, hb, hq, ih]

/-- Claim C4: the escaping function doubles backslashes first and escapes
quotes second; equivalently it acts per character as `escapeSpecData`,
and on the two-character input backslash, quote it yields the four
characters backslash, backslash, backslash, quote (the reverse order
would yield five characters). -/
theorem C4_escaping_order (s : String) :
    (escapeForAppleScript s).data = escapeSpecData s.data ∧
    escapeForAppleScript ("\\\"") = "\\\\\\\"" ∧
    replaceBackslashes (replaceQuotes ("\\\"" : String).data) ≠
      (escapeForAppleScript ("\\\"")).data := by
  refine ⟨?_, by decide, by decide⟩
  simp only [escapeForAppleScript]
  exact replaceQuotes_replaceBackslashes s.data

/-- Counterexample for claim C6: the identifier `iterm-1-0`, whose
pane-index segment denotes zero, is decoded (to pane index 0), not
rejected as InvalidFormat. -/
theorem C6_counterexample :
    decode ("iterm-1-0") = some ("1", 0) ∧ decode ("iterm-1-0") ≠ none := by
  exact ⟨by decide, by decide⟩

/-- Claim C6 as amended: decode places no lower bound on the pane index;
`iterm-1-0` decodes to pane index 0 and the operation goes on to issue
one automation call (with tab index 0 spliced into the script) instead of
returning InvalidFormat. -/
theorem C6_amended_zero_pane_decoded (exec : String → ExecOutcome)
    (command : String) :
    decode ("iterm-1-0") = some ("1", 0) ∧
    (executeCommandTool exec ("iterm-1-0") command).2 =
      [executeCommandScript ("1") 0 (escapeForAppleScript command)] := by
  refine ⟨by decide, ?_⟩
  simp only [executeCommandTool, (by decide : decode ("iterm-1-0") = some ("1", 0))]
  cases exec (executeCommandScript ("1") 0 (escapeForAppleScript command)) with
  | ok r =>
      dsimp only
      by_cases hr : r = "Window not found" ∨ r = "Tab not found"
      · rw [if_pos hr]
      · rw [if_neg hr]
  | err m => rfl

/-- Counterexample for claim C8: with a failing executor, close-terminal
on a well-formed identifier replies with the plain "closed" confirmation,
not with any failure report (the error is only logged). -/
theorem C8_counterexample :
    (closeTerminalTool (fun _ => ExecOutcome.err ("osascript exited 1"))
        ("iterm-1-1")).1 = "Terminal iterm-1-1 closed" := by
  decide

/-- Claim C8 as amended: for a well-formed identifier, an executor failure
is swallowed by close-terminal, which still returns the "closed"
confirmation; the "was not found" message is produced exactly for the
`Window not found` sentinel, and any other script result also yields the
"closed" confirmation. -/
theorem C8_amended_close_swallows_error (terminalId w : String) (p : Nat)
    (m : String) (hdec : decode terminalId = some (w, p)) :
    (closeTerminalTool (fun _ => ExecOutcome.err m) terminalId).1 =
      "Terminal " ++ terminalId ++ " closed" ∧
    (closeTerminalTool (fun _ => ExecOutcome.ok ("Window not found"))
        terminalId).1 = "Terminal " ++ terminalId ++ " was not found in iTerm" ∧
    (closeTerminalTool (fun _ => ExecOutcome.ok ("Closed")) terminalId).1 =
      "Terminal " ++ terminalId ++ " closed" := by
  refine ⟨?_, ?_, ?_⟩ <;> simp [closeTerminalTool, hdec]

/-- Witness for C8's amended theorem at a concrete identifier and error. -/
theorem C8_witness :
    (closeTerminalTool (fun _ => ExecOutcome.err ("boom")) ("iterm-7-2")).1 =
      "Terminal iterm-7-2 closed" :=
  (C8_amended_close_swallows_error ("iterm-7-2") ("7") 2 ("boom") (by decide)).1

/-- Claim C1: for every pane-addressed operation (execute-command,
read-output, clear-terminal, send-keys) on a well-formed identifier, an
executor result of exactly `Window not found` or exactly `Tab not found`
makes the operation return its session-not-found message to the caller
and never its success result. -/
theorem C1_sentinel_session_not_found (terminalId command w : String)
    (p : Nat) (r : String) (lines : Option Int) (keys text : Option String)
    (hdec : decode terminalId = some (w, p))
    (hr : r = "Window not found" ∨ r = "Tab not found")
    (hkt : sendKeysSequence keys text ≠ none) :
    (executeCommandTool (fun _ => ExecOutcome.ok r) terminalId command).1 =
      "Terminal " ++ terminalId ++ " session not found in iTerm" ∧
    (executeCommandTool (fun _ => ExecOutcome.ok r) terminalId command).1 ≠
      "Command executed in " ++ terminalId ++ ": " ++ command ∧
    (readOutputTool (fun _ => ExecOutcome.ok r) terminalId lines).1 =
      "Terminal " ++ terminalId ++ " not found in iTerm" ∧
    (readOutputTool (fun _ => ExecOutcome.ok r) terminalId lines).1 ≠ r ∧
    (readOutputTool (fun _ => ExecOutcome.ok r) terminalId lines).1 ≠
      "No output available" ∧
    (clearTerminalTool (fun _ => ExecOutcome.ok r) terminalId).1 =
      "Terminal " ++ terminalId ++ " not found in iTerm" ∧
    (clearTerminalTool (fun _ => ExecOutcome.ok r) terminalId).1 ≠
      "Terminal " ++ terminalId ++ " cleared" ∧
    (sendKeysTool (fun _ => ExecOutcome.ok r) terminalId keys text).1 =
      "Terminal " ++ terminalId ++ " not found in iTerm" ∧
    (sendKeysTool (fun _ => ExecOutcome.ok r) terminalId keys text).1 ≠
      sendKeysSentMessage keys text terminalId := by
  obtain ⟨sq, hsq⟩ : ∃ sq, sendKeysSequence keys text = some sq := by
    cases hskt : sendKeysSequence keys text with
    | none => exact absurd hskt hkt
    | some v => exact ⟨v, rfl⟩
  have he : (executeCommandTool (fun _ => ExecOutcome.ok r) terminalId command).1 =
      "Terminal " ++ terminalId ++ " session not found in iTerm" := by
    simp only [executeCommandTool, hdec]
    rw [if_pos hr]
  have hro : (readOutputTool (fun _ => ExecOutcome.ok r) terminalId lines).1 =
      "Terminal " ++ terminalId ++ " not found in iTerm" := by
    simp only [readOutputTool, hdec]
    rw [if_pos hr]
  have hcl : (clearTerminalTool (fun _ => ExecOutcome.ok r) terminalId).1 =
      "Terminal " ++ terminalId ++ " not found in iTerm" := by
    simp only [clearTerminalTool, hdec]
    rw [if_pos hr]
  have hsk : (sendKeysTool (fun _ => ExecOutcome.ok r) terminalId keys text).1 =
      "Terminal " ++ terminalId ++ " not found in iTerm" := by
    simp only [sendKeysTool, hdec, hsq]
    rw [if_pos hr]
  refine ⟨he, ?_, hro, ?_, ?_, hcl, ?_, hsk, ?_⟩
  · rw [he]
    exact ne_of_headChar rfl rfl (by decide)
  · rw [hro]
    rcases hr with h | h <;> subst h
    · exact ne_of_headChar rfl rfl (by decide)
    · exact ne_of_secondChar rfl rfl (by decide)
  · rw [hro]
    exact ne_of_headChar rfl rfl (by decide)
  · rw [hcl]
    show ("Terminal " ++ terminalId) ++ " not found in iTerm" ≠
      ("Terminal " ++ terminalId) ++ " cleared"
    exact ne_append_left _ (by decide)
  · rw [hsk]
    exact ne_of_headChar rfl rfl (by decide)

/-- Witness for C1 at a concrete identifier, both sentinel strings. -/
theorem C1_witness :
    (executeCommandTool (fun _ => ExecOutcome.ok ("Window not found"))
        ("iterm-1-1") ("ls")).1 =
      "Terminal iterm-1-1 session not found in iTerm" ∧
    (sendKeysTool (fun _ => ExecOutcome.ok ("Tab not found"))
        ("iterm-1-1") none (some ("hi"))).1 =
      "Terminal iterm-1-1 not found in iTerm" := by
  have h1 := C1_sentinel_session_not_found ("iterm-1-1") ("ls") ("1") 1
    ("Window not found") none none (some ("hi")) (by decide) (Or.inl rfl)
    (by decide)
  have h2 := C1_sentinel_session_not_found ("iterm-1-1") ("ls") ("1") 1
    ("Tab not found") none none (some ("hi")) (by decide) (Or.inr rfl)
    (by decide)
  exact ⟨h1.1, h2.2.2.2.2.2.2.2.1⟩

theorem digitChar_toNat {d : Nat} (h : d < 10) :
    (digitChar d).toNat = 48 + d := by
  interval_cases d <;> rfl

theorem isDig_digitChar {d : Nat} (h : d < 10) :
    isDig (digitChar d) = true := by
  interval_cases d <;> rfl

theorem natToCharsAux_digits {fuel n : Nat} (h : n ≤ fuel) :
    ∀ c ∈ natToCharsAux fuel n, isDig c = true := by
  induction fuel generalizing n with
  | zero =>
      intro c hc
      simp [natToCharsAux] at hc
  | succ f ih =>
      intro c hc
      by_cases h0 : n = 0
      · simp [natToCharsAux, h0] at hc
      · rw [natToCharsAux, if_neg h0] at hc
        have hd : n / 10 ≤ f := by
          have := Nat.div_lt_self (Nat.pos_of_ne_zero h0)
            (by norm_num : (1 : Nat) < 10)
          omega
        rcases List.mem_append.mp hc with hm | hm
        · exact ih hd c hm
        · have : c = digitChar (n % 10) := by simpa using hm
          subst this
          exact isDig_digitChar (Nat.mod_lt n (by norm_num))

theorem foldl_natToCharsAux {fuel n a : Nat} (h : n ≤ fuel) :
    List.foldl (fun b c => 10 * b + (c.toNat - 48)) a (natToCharsAux fuel n) =
      a * 10 ^ (natToCharsAux fuel n).length + n := by
  induction fuel generalizing n a with
  | zero =>
      have h0 : n = 0 := Nat.le_zero.mp h
      subst h0
      simp [natToCharsAux]
  | succ f ih =>
      by_cases h0 : n = 0
      · subst h0
        simp [natToCharsAux]
      · rw [natToCharsAux, if_neg h0]
        have hd : n / 10 ≤ f := by
          have := Nat.div_lt_self (Nat.pos_of_ne_zero h0)
            (by norm_num : (1 : Nat) < 10)
          omega
        rw [List.foldl_append, ih hd, List.length_append]
        simp only [List.foldl_cons, List.foldl_nil, List.length_singleton]
        rw [digitChar_toNat (Nat.mod_lt n (by norm_num))]
        have hmod : 48 + n % 10 - 48 = n % 10 := by omega
        rw [hmod]
        have hdm : 10 * (n / 10) + n % 10 = n := Nat.div_add_mod n 10
        set L := (natToCharsAux f (n / 10)).length with hL
        calc 10 * (a * 10 ^ L + n / 10) + n % 10
            = a * 10 ^ (L + 1) + (10 * (n / 10) + n % 10) := by ring
          _ = a * 10 ^ (L + 1) + n := by rw [hdm]

theorem parseDecDigits_natToCharsAux {n : Nat} :
    parseDecDigits (natToCharsAux n n) = n := by
  have h := foldl_natToCharsAux (a := 0) (Nat.le_refl n)
  simpa [parseDecDigits] using h

theorem natToCharsAux_ne_nil {n : Nat} (h : n ≠ 0) :
    natToCharsAux n n ≠ [] := by
  cases n with
  | zero => exact absurd rfl h
  | succ f =>
      rw [natToCharsAux, if_neg h]
      simp

theorem takeWhile_all_append {w l : List Char}
    (hw : ∀ c ∈ w, isDig c = true) :
    (w ++ l).takeWhile isDig = w ++ l.takeWhile isDig ∧
    (w ++ l).dropWhile isDig = l.dropWhile isDig := by
  induction w with
  | nil => simp
  | cons c cs ih =>
      have hc : isDig c = true := hw c (List.mem_cons_self c cs)
      have ihh := ih (fun d hd => hw d (List.mem_cons_of_mem c hd))
      simp only [List.cons_append, List.takeWhile_cons, List.dropWhile_cons,
        hc, if_true, ihh.1, ihh.2]
      simp

theorem split_digits_dash {w l : List Char}
    (hw : ∀ c ∈ w, isDig c = true) :
    (w ++ '-' :: l).takeWhile isDig = w ∧
    (w ++ '-' :: l).dropWhile isDig = '-' :: l := by
  obtain ⟨h1, h2⟩ := takeWhile_all_append (l := '-' :: l) hw
  have hdash : isDig '-' = false := by decide
  constructor
  · rw [h1, List.takeWhile_cons, hdash]
    simp
  · rw [h2, List.dropWhile_cons, hdash]
    simp

theorem takeWhile_all_self {l : List Char} (h : ∀ c ∈ l, isDig c = true) :
    l.takeWhile isDig = l ∧ l.dropWhile isDig = [] := by
  have := takeWhile_all_append (l := ([] : List Char)) h
  simpa using this

/-- Claim C2: for every non-empty digit-string containerId and every
paneIndex ≥ 1, the parse performed by the terminalId-taking operations
inverts the identifier synthesis of open-terminal:
`decode (encode containerId paneIndex) = some (containerId, paneIndex)`. -/
theorem C2_encode_decode_roundtrip (containerId : String) (paneIndex : Nat)
    (hne : containerId.data ≠ [])
    (hdig : ∀ c ∈ containerId.data, isDig c = true)
    (hp : 1 ≤ paneIndex) :
    decode (encode containerId paneIndex) = some (containerId, paneIndex) := by
  have hp0 : paneIndex ≠ 0 := by omega
  have hns : natStr paneIndex = String.mk (natToCharsAux paneIndex paneIndex) := by
    rw [natStr, if_neg hp0]
  have hdata : (encode containerId paneIndex).data =
      'i' :: 't' :: 'e' :: 'r' :: 'm' :: '-' ::
        (containerId.data ++ '-' :: natToCharsAux paneIndex paneIndex) := by
    rw [encode, hns]
    simp only [String.data_append, List.append_assoc]
    rfl
  rw [decode, hdata]
  rw [decodeData]
  have haux : ∀ c ∈ natToCharsAux paneIndex paneIndex, isDig c = true :=
    natToCharsAux_digits (Nat.le_refl paneIndex)
  obtain ⟨ht, hd⟩ := split_digits_dash (l := natToCharsAux paneIndex paneIndex) hdig
  obtain ⟨ht2, hd2⟩ := takeWhile_all_self haux
  rw [decodeBody]
  simp only [ht, hd, ht2, hd2]
  rw [if_neg hne]
  rw [if_neg (natToCharsAux_ne_nil hp0)]
  simp only [if_true, parseDecDigits_natToCharsAux]

/-- Witness for C2 at the concrete pair ("42", 3). -/
theorem C2_witness : decode (encode ("42") 3) = some ("42", 3) :=
  C2_encode_decode_roundtrip ("42") 3 (by decide) (by decide) (by decide)

set_option maxRecDepth 10000 in
/-- Counterexample for claim C5: with both `keys = "ctrl-c"` and
`text = "hello"` supplied, the script actually sent is the control-key
script derived from `keys` (ASCII code 3), not the text-writing script
for the escaped text that the claim predicts, so `text` does not take
precedence in this branch. -/
theorem C5_counterexample :
    sendKeysScriptOf ("1") 1 (some ("ctrl-c")) (some ("hello")) =
      sendKeysCtrlScript ("1") 1 ("3") ∧
    sendKeysScriptOf ("1") 1 (some ("ctrl-c")) (some ("hello")) ≠
      sendKeysTextScript ("1") 1 (escapeForAppleScript ("hello")) := by
  exact ⟨by decide, by decide⟩

/-- Claim C5 as amended: a truthy `text` determines the sequence written
to the pane only when `keys` does not (case-insensitively) start with
`ctrl-`; when it does, the control branch is chosen from `keys` alone and
the derived control character is written regardless of `text`. -/
theorem C5_amended_text_precedence (windowId : String) (tabIndex : Nat)
    (keys : Option String) (t : String) (ht : t ≠ "") :
    (ctrlish keys = false →
      sendKeysScriptOf windowId tabIndex keys (some t) =
        sendKeysTextScript windowId tabIndex (escapeForAppleScript t)) ∧
    (ctrlish keys = true →
      sendKeysScriptOf windowId tabIndex keys (some t) =
        sendKeysCtrlScript windowId tabIndex (ctrlCodeStr (keys.getD ("")))) := by
  have htr : truthyStr (some t) = true := by simp [truthyStr, ht]
  constructor
  · intro hc
    simp only [sendKeysScriptOf, hc, Bool.false_eq_true, if_false]
    simp [sendKeysSequence, htr]
  · intro hc
    simp only [sendKeysScriptOf, hc, if_true]

/-- Witness for C5's amended theorem: a non-control key name with text
supplied sends the escaped text. -/
theorem C5_witness :
    sendKeysScriptOf ("1") 1 (some ("x")) (some ("hi")) =
      sendKeysTextScript ("1") 1 (escapeForAppleScript ("hi")) :=
  (C5_amended_text_precedence ("1") 1 (some ("x")) ("hi") (by decide)).1
    (by decide)

set_option maxRecDepth 10000 in
/-- Counterexample for claim C7: a supplied line count of zero is NOT
passed through into the synthesized read-output script — the `lines ?`
conditional treats 0 as falsy, so the truncation arithmetic is absent. -/
theorem C7_counterexample :
    ¬ ("if lineCount > " ++ jsIntToString 0).data <:+:
        (readOutputScript ("1") 1 (some 0)).data := by
  decide

/-- Claim C7 as amended: any nonzero supplied line count (in particular
any negative one) is passed through into the synthesized script — the
truncation comparison appears with the supplied value substituted — while
a supplied count of zero behaves exactly like an omitted lines argument. -/
theorem C7_amended_lines_passthrough (windowId : String) (tabIndex : Nat)
    (n : Int) (h : n ≠ 0) :
    ("if lineCount > " ++ jsIntToString n).data <:+:
      (readOutputScript windowId tabIndex (some n)).data ∧
    readOutputScript windowId tabIndex (some 0) =
      readOutputScript windowId tabIndex none := by
  constructor
  · have step1 : ("if lineCount > " ++ jsIntToString n).data <:+:
        (readOutputTruncBlock n).data :=
      infix_data_of_split _ _ _ rfl
    have ht : truthyLines (some n) = true := by simp [truthyLines, h]
    have step2 : (readOutputTruncBlock n).data <:+:
        (readOutputScript windowId tabIndex (some n)).data := by
      apply infix_data_of_split (readOutputScriptPre windowId tabIndex)
        (readOutputTruncBlock n) readOutputScriptPost
      rw [readOutputScript, ht]
      simp
    exact step1.trans step2
  · rfl

/-- Witness for C7's amended theorem at a concrete negative count. -/
theorem C7_witness :
    ("if lineCount > " ++ jsIntToString (-5)).data <:+:
      (readOutputScript ("1") 1 (some (-5))).data :=
  (C7_amended_lines_passthrough ("1") 1 (-5) (by decide)).1

/-- Claim C9: for every letter a-z and any letter-casing of the
`ctrl-<letter>` key name, send-keys takes the control branch, derives the
control code letter − 'a' + 1 (so 1 for a through 26 for z, and 3 for
both CTRL-C and ctrl-c), and synthesizes the script that writes that
single ASCII character. -/
theorem C9_ctrl_code_derivation (keys : String) (c : Char)
    (h1 : 97 ≤ c.toNat) (h2 : c.toNat ≤ 122)
    (hk : (jsToLower keys).data = ['c', 't', 'r', 'l', '-', c]) :
    ctrlish (some keys) = true ∧
    ctrlCodeStr keys = natStr (c.toNat - 96) ∧
    1 ≤ c.toNat - 96 ∧ c.toNat - 96 ≤ 26 ∧
    ∀ (windowId : String) (tabIndex : Nat) (text : Option String),
      sendKeysScriptOf windowId tabIndex (some keys) text =
        sendKeysCtrlScript windowId tabIndex (natStr (c.toNat - 96)) ∧
      ("write text (ASCII character " ++ natStr (c.toNat - 96) ++ ")").data <:+:
        (sendKeysScriptOf windowId tabIndex (some keys) text).data := by
  have hne : keys ≠ "" := by
    intro h0
    subst h0
    simp [jsToLower] at hk
  have htr : truthyStr (some keys) = true := by simp [truthyStr, hne]
  have hpre : "ctrl-".data.isPrefixOf (jsToLower keys).data = true := by
    rw [hk]
    rfl
  have hctr : ctrlish (some keys) = true := by
    simp [ctrlish, htr, hpre]
  have hcode : ctrlCodeStr keys = natStr (c.toNat - 96) := by
    rw [ctrlCodeStr, hk]
    show jsIntToString ((c.toNat : Int) - 96) = natStr (c.toNat - 96)
    rw [jsIntToString, if_neg (by omega : ¬((c.toNat : Int) - 96 < 0))]
    congr 1
    omega
  refine ⟨hctr, hcode, by omega, by omega, ?_⟩
  intro windowId tabIndex text
  have hscript : sendKeysScriptOf windowId tabIndex (some keys) text =
      sendKeysCtrlScript windowId tabIndex (natStr (c.toNat - 96)) := by
    simp only [sendKeysScriptOf, hctr, if_true, Option.getD_some, hcode]
  refine ⟨hscript, ?_⟩
  rw [hscript, sendKeysCtrlScript]
  apply infix_data_of_split (sendKeysCtrlScriptPre windowId tabIndex)
    ("write text (ASCII character " ++ natStr (c.toNat - 96) ++ ")")
    (" newline NO" ++ sendKeysScriptPost)
  simp only [String.append_assoc]

/-- Witness for C9: CTRL-C and ctrl-c both derive control code 3. -/
theorem C9_witness :
    ctrlCodeStr ("CTRL-C") = natStr ('c'.toNat - 96) ∧
    ctrlCodeStr ("ctrl-c") = natStr ('c'.toNat - 96) :=
  ⟨(C9_ctrl_code_derivation ("CTRL-C") 'c' (by decide) (by decide)
      (by decide)).2.1,
   (C9_ctrl_code_derivation ("ctrl-c") 'c' (by decide) (by decide)
      (by decide)).2.1⟩

/-- Claim C10: every script synthesized by send-keys — the control-key
branch and the text/special-key branch, hence every script the handler
passes to the executor — writes with the trailing newline suppressed
(`newline NO`); in contrast, in the execute-command script the
`write text "<command>"` is followed directly by a line break (no
`newline NO` is attached to its write), so that write gets the implicit
trailing newline. -/
theorem C10_send_keys_newline_no :
    (∀ (windowId : String) (tabIndex : Nat) (code : String),
      (" newline NO").data <:+: (sendKeysCtrlScript windowId tabIndex code).data) ∧
    (∀ (windowId : String) (tabIndex : Nat) (seq : String),
      (" newline NO").data <:+: (sendKeysTextScript windowId tabIndex seq).data) ∧
    (∀ (exec : String → ExecOutcome) (terminalId : String)
        (keys text : Option String) (s : String),
      s ∈ (sendKeysTool exec terminalId keys text).2 →
        (" newline NO").data <:+: s.data) ∧
    (∀ (windowId : String) (tabIndex : Nat) (escapedCommand : String),
      ("write text \"" ++ escapedCommand ++ "\"\n").data <:+:
        (executeCommandScript windowId tabIndex escapedCommand).data) := by
  have h1 : ∀ (windowId : String) (tabIndex : Nat) (code : String),
      (" newline NO").data <:+: (sendKeysCtrlScript windowId tabIndex code).data := by
    intro windowId tabIndex code
    exact infix_data_of_split
      (sendKeysCtrlScriptPre windowId tabIndex ++
        ("write text (ASCII character " ++ code ++ ")"))
      (" newline NO") sendKeysScriptPost rfl
  have h2 : ∀ (windowId : String) (tabIndex : Nat) (seq : String),
      (" newline NO").data <:+: (sendKeysTextScript windowId tabIndex seq).data := by
    intro windowId tabIndex seq
    exact infix_data_of_split
      (sendKeysTextScriptPre windowId tabIndex ++
        ("write text \"" ++ seq ++ "\""))
      (" newline NO") sendKeysScriptPost rfl
  have h3 : ∀ (windowId : String) (tabIndex : Nat) (keys text : Option String),
      (" newline NO").data <:+: (sendKeysScriptOf windowId tabIndex keys text).data := by
    intro windowId tabIndex keys text
    by_cases hc : ctrlish keys = true
    · simp only [sendKeysScriptOf, hc, if_true]
      exact h1 windowId tabIndex _
    · simp only [sendKeysScriptOf, if_neg hc]
      exact h2 windowId tabIndex _
  refine ⟨h1, h2, ?_, ?_⟩
  case refine_2 =>
    intro windowId tabIndex escapedCommand
    exact infix_data_of_split
      ("\n      tell application \"iTerm2\"\n        -- Find the window by ID\n        repeat with aWindow in windows\n          if (id of aWindow as string) = \"" ++
        windowId ++
        "\" then\n            tell aWindow\n              -- Find the tab by index\n              if (count of tabs) >= " ++
        natStr tabIndex ++
        " then\n                tell tab " ++
        natStr tabIndex ++
        "\n                  tell current session\n                    ")
      ("write text \"" ++ escapedCommand ++ "\"\n")
      ("                    return \"Command executed\"\n                  end tell\n                end tell\n              else\n                return \"Tab not found\"\n              end if\n            end tell\n            return \"Command executed\"\n          end if\n        end repeat\n        return \"Window not found\"\n      end tell\n    ")
      rfl
  intro exec terminalId keys text s hs
  cases hdec : decode terminalId with
  | none =>
      simp only [sendKeysTool, hdec] at hs
      simp at hs
  | some wp =>
      obtain ⟨w0, p0⟩ := wp
      simp only [sendKeysTool, hdec] at hs
      cases hseq : sendKeysSequence keys text with
      | none =>
          simp only [hseq] at hs
          simp at hs
      | some sq =>
          simp only [hseq] at hs
          cases hex : exec (sendKeysScriptOf w0 p0 keys text) with
          | ok r =>
              simp only [hex] at hs
              by_cases hr : r = "Window not found" ∨ r = "Tab not found"
              · rw [if_pos hr] at hs
                have hss := List.mem_singleton.mp hs
                subst hss
                exact h3 w0 p0 keys text
              · rw [if_neg hr] at hs
                have hss := List.mem_singleton.mp hs
                subst hss
                exact h3 w0 p0 keys text
          | err m =>
              simp only [hex] at hs
              have hss := List.mem_singleton.mp hs
              subst hss
              exact h3 w0 p0 keys text

set_option maxRecDepth 10000 in
/-- Witness for C10 at a concrete send-keys invocation. -/
theorem C10_witness :
    (" newline NO").data <:+: (sendKeysScriptOf ("1") 1 none (some ("hi"))).data :=
  C10_send_keys_newline_no.2.2.1 (fun _ => ExecOutcome.ok ("Keys sent"))
    ("iterm-1-1") none (some ("hi"))
    (sendKeysScriptOf ("1") 1 none (some ("hi"))) (by decide)

end ITermMCP
